import Mathlib

/-!
Verification of the ClearShelf billing component
(src/src/components/shopkeeper/BillingDialog.tsx).

The development shallowly embeds the cart resolver, the cart manager and
the checkout engine of the billing dialog.  Remote database tables are
modelled as Lean lists, asynchronous queries as pure functions over those
lists, and remote-call failures as boolean oracles indexed by the entity
being fetched or updated.  The checkout engine additionally produces an
event trace (receipt opening, batch fetches, successful batch updates) so
that temporal ordering and no-rollback properties can be stated.
-/

namespace ClearShelf

/-- A row of the products table (columns used by the component:
id, name, gtin). -/
structure Product where
  id : String
  name : String
  gtin : Option String
deriving DecidableEq, Repr

/-- A row of the inventory batches table (columns used by the component).
Expiry dates are modelled as naturals ordered like calendar dates;
prices are rationals (the component only multiplies and sums them).
The status column is kept as a string, exactly as the code compares and
writes it. -/
structure Batch where
  id : String
  product_id : String
  shop_id : String
  quantity : Nat
  mrp : ℚ
  discount_percent : Option ℚ
  expiry_date : Nat
  status : String
deriving DecidableEq, Repr

/-- The remote store queried by the resolver. -/
structure DB where
  products : List Product
  batches : List Batch
deriving DecidableEq, Repr

/-- The CartItem interface of the component. -/
structure CartItem where
  productId : String
  gtin : Option String
  name : String
  qty : Nat
  unitPrice : ℚ
  availableQty : Nat
deriving DecidableEq, Repr

/-- The structured guess returned by the OCR edge function:
ocrData may contain gtin, productName, expiryDate, each optional. -/
structure ScanGuess where
  gtin : Option String
  productName : Option String
  expiryDate : Option Nat
deriving DecidableEq, Repr

/-! ### Checkout engine (finalizeCheckout) -/

/-- Predicate of the batch query used throughout the component:
product and shop match, status is active, quantity strictly positive. -/
def isActivePositive (shopId pid : String) (b : Batch) : Bool :=
  b.product_id = pid && b.shop_id = shopId && b.status = "active" && decide (0 < b.quantity)

/-- Ascending expiry-date order used by the checkout fetch
(.order with expiry_date ascending). -/
def expiryLE (a b : Batch) : Prop := a.expiry_date ≤ b.expiry_date

instance : DecidableRel expiryLE := fun a b => Nat.decLe a.expiry_date b.expiry_date

instance : IsTotal Batch expiryLE := ⟨fun a b => Nat.le_total a.expiry_date b.expiry_date⟩

instance : IsTrans Batch expiryLE := ⟨fun _ _ _ => Nat.le_trans⟩

/-- The batch fetch issued per cart line by finalizeCheckout: active,
positive-quantity batches of the product at the shop, ordered by
ascending expiry date. -/
def fetchBatchesSorted (db : List Batch) (shopId pid : String) : List Batch :=
  (db.filter (isActivePositive shopId pid)).insertionSort expiryLE

/-- The errors finalizeCheckout throws, each carrying the name of the
cart line being processed (the code interpolates item.name into the
thrown message). -/
inductive CheckoutError where
  | fetchFailed (productName : String)
  | updateFailed (productName : String)
deriving DecidableEq, Repr

/-- Trace events of one checkout run.  A batchUpdate event records a
successfully applied update together with the written row values. -/
inductive Event where
  | receiptOpened
  | batchFetch (productId : String)
  | batchUpdate (batchId : String) (newQuantity : Nat) (newStatus : String)
deriving DecidableEq, Repr

/-- The .update call: set quantity and status of the row with the given
id. -/
def applyUpdate (db : List Batch) (batchId : String) (newQ : Nat) (newStatus : String) :
    List Batch :=
  db.map (fun b => if b.id = batchId then { b with quantity := newQ, status := newStatus } else b)

/-- Replay a trace against a database state: only batchUpdate events
change rows. -/
def applyEvent (db : List Batch) : Event → List Batch
  | .receiptOpened => db
  | .batchFetch _ => db
  | .batchUpdate bid q st => applyUpdate db bid q st

/-- Replay a whole trace in order. -/
def applyEvents (db : List Batch) (evs : List Event) : List Batch :=
  evs.foldl applyEvent db

/-- The inner per-line loop of finalizeCheckout: walk the fetched batch
list, deduct min(quantityToDeduct, batch.quantity) from each batch,
write back the new quantity with status sold_out exactly when it is
zero, stop early once the remaining quantity is zero, abort with an
error when an update call fails.  Returns the updated database, the
remaining undeducted quantity, the update events issued successfully,
and the error if any. -/
def deductLine (updateFails : String → Bool) (itemName : String) :
    Nat → List Batch → List Batch → List Batch × Nat × List Event × Option CheckoutError
  | quantityToDeduct, db, [] => (db, quantityToDeduct, [], none)
  | quantityToDeduct, db, batch :: rest =>
    if quantityToDeduct = 0 then (db, quantityToDeduct, [], none)
    else
      let deduction := min quantityToDeduct batch.quantity
      let newQuantity := batch.quantity - deduction
      let newStatus := if newQuantity = 0 then "sold_out" else "active"
      if updateFails batch.id then
        (db, quantityToDeduct, [], some (.updateFailed itemName))
      else
        let r := deductLine updateFails itemName (quantityToDeduct - deduction)
          (applyUpdate db batch.id newQuantity newStatus) rest
        (r.1, r.2.1, Event.batchUpdate batch.id newQuantity newStatus :: r.2.2.1, r.2.2.2)

/-- The outer loop of finalizeCheckout over the cart lines, in cart
order.  A fetch failure or an update failure aborts the remaining work;
deductions already applied stay applied. -/
def processLines (fetchFails updateFails : String → Bool) (shopId : String) :
    List CartItem → List Batch → List Batch × List Event × Option CheckoutError
  | [], db => (db, [], none)
  | item :: rest, db =>
    if fetchFails item.productId then
      (db, [Event.batchFetch item.productId], some (.fetchFailed item.name))
    else
      let fetched := fetchBatchesSorted db shopId item.productId
      let r := deductLine updateFails item.name item.qty db fetched
      match r.2.2.2 with
      | some e => (r.1, Event.batchFetch item.productId :: r.2.2.1, some e)
      | none =>
        let r2 := processLines fetchFails updateFails shopId rest r.1
        (r2.1, Event.batchFetch item.productId :: (r.2.2.1 ++ r2.2.1), r2.2.2)

/-- The printable receipt generated by generateReceiptHtml: shop title,
one row per cart line with quantity, unit price and line total, and the
subtotal. -/
structure Receipt where
  shopTitle : String
  rows : List (String × Nat × ℚ × ℚ)
  subtotal : ℚ
deriving DecidableEq, Repr

/-- generateReceiptHtml as a pure projection of the cart. -/
def generateReceiptHtml (shopName : Option String) (cart : List CartItem) : Receipt :=
  { shopTitle := shopName.getD "Your Shop"
    rows := cart.map (fun item => (item.name, item.qty, item.unitPrice, item.qty * item.unitPrice))
    subtotal := cart.foldl (fun sum item => sum + item.qty * item.unitPrice) 0 }

/-- Observable result of one finalizeCheckout invocation. -/
structure CheckoutResult where
  db : List Batch
  events : List Event
  error : Option CheckoutError
  finalCart : List CartItem
  receipt : Option Receipt
deriving DecidableEq, Repr

/-- finalizeCheckout: empty carts return early without a receipt;
otherwise the receipt is generated and opened first, then the deduction
loop runs.  Full success closes the dialog, which resets state and
clears the cart; any failure keeps the dialog open with the cart
retained. -/
def finalizeCheckout (fetchFails updateFails : String → Bool) (shopName : Option String)
    (shopId : String) (cart : List CartItem) (db : List Batch) : CheckoutResult :=
  if cart.isEmpty then
    { db := db, events := [], error := none, finalCart := cart, receipt := none }
  else
    let r := processLines fetchFails updateFails shopId cart db
    { db := r.1
      events := Event.receiptOpened :: r.2.1
      error := r.2.2
      finalCart := if r.2.2.isSome then cart else []
      receipt := some (generateReceiptHtml shopName cart) }

/-! ### Cart resolver (resolveScannedProductToCart) -/

/-- Lowercasing used to model the case-insensitive ilike match. -/
def lowerChars (cs : List Char) : List Char := cs.map Char.toLower

/-- The trim applied to the guessed product name before the search:
strip leading and trailing whitespace. -/
def trimChars (cs : List Char) : List Char :=
  ((cs.dropWhile Char.isWhitespace).reverse.dropWhile Char.isWhitespace).reverse

/-- String-level trim over the character list. -/
def jsTrim (s : String) : String := ⟨trimChars s.data⟩

/-- Character-list version of: pat is an initial segment of s. -/
def charsStartWith : List Char → List Char → Bool
  | [], _ => true
  | _ :: _, [] => false
  | a :: as, b :: bs => a = b && charsStartWith as bs

/-- Character-list version of: pat occurs contiguously inside s. -/
def charsContain (pat : List Char) : List Char → Bool
  | [] => pat.isEmpty
  | c :: rest => charsStartWith pat (c :: rest) || charsContain pat rest

/-- The ilike query of the name search: stored name contains the query,
case-insensitively. -/
def ilikeContains (pat s : String) : Bool :=
  charsContain (lowerChars pat.data) (lowerChars s.data)

/-- The gtin lookup with maybeSingle: data is returned only when the
query yields exactly one row (zero rows give null, several rows give an
error whose data is also null, and the code only uses data). -/
def lookupByGtin (db : DB) (code : String) : Option Product :=
  match db.products.filter (fun p => p.gtin = some code) with
  | [p] => some p
  | _ => none

/-- Step 1 of the resolver: the gtin branch, taken only when the guess
carries a gtin. -/
def codeMatch (db : DB) (g : Option String) : Option Product :=
  match g with
  | some c => lookupByGtin db c
  | none => none

/-- Step 2 of the resolver: the case-insensitive partial name search,
limited to 5 results. -/
def nameCandidates (db : DB) (nameQuery : String) : List Product :=
  (db.products.filter (fun p => ilikeContains nameQuery p.name)).take 5

/-- The per-candidate probe of the expiry tie-break: an active batch of
the candidate at this shop with exactly the guessed expiry date and
positive quantity (the query is limited to 1 row and only emptiness is
checked). -/
def probeExpiry (db : DB) (shopId pid : String) (d : Nat) : Bool :=
  !((db.batches.filter (fun b =>
      b.product_id = pid && b.shop_id = shopId && b.status = "active"
        && b.expiry_date = d && decide (0 < b.quantity))).take 1).isEmpty

/-- The tie-break loop over the name candidates in result order: pick
the first candidate whose probe succeeds. -/
def tieBreak (db : DB) (shopId : String) (d : Nat) : List Product → Option Product
  | [] => none
  | p :: rest => if probeExpiry db shopId p.id d then some p else tieBreak db shopId d rest

/-- Product selection of the resolver: prefer the gtin match; otherwise
search by name, tie-break by expiry when the guess has one, and fall
back to the first name candidate. -/
def selectProduct (db : DB) (shopId : String) (ocr : ScanGuess) : Option Product :=
  match codeMatch db ocr.gtin with
  | some p => some p
  | none =>
    match ocr.productName with
    | none => none
    | some nm =>
      let cands := nameCandidates db (jsTrim nm)
      if cands.isEmpty then none
      else
        match (match ocr.expiryDate with
               | some d => tieBreak db shopId d cands
               | none => none) with
        | some p => some p
        | none => cands.head?

/-- The active positive-quantity batches of a product at a shop, as the
inventory query of step 3 returns them. -/
def activeBatches (db : DB) (shopId pid : String) : List Batch :=
  db.batches.filter (isActivePositive shopId pid)

/-- Step 3 of the resolver: fetch batches, filtered by the exact guessed
expiry date when one was supplied; when that filtered query is empty,
retry the same query without the expiry filter. -/
def fetchInventory (db : DB) (shopId pid : String) (exp : Option Nat) : List Batch :=
  match exp with
  | none => activeBatches db shopId pid
  | some d =>
    let filtered := (activeBatches db shopId pid).filter (fun b => b.expiry_date = d)
    if filtered.isEmpty then activeBatches db shopId pid else filtered

/-- The reduce over batches computing the available quantity. -/
def sumQuantities (bs : List Batch) : Nat := bs.foldl (fun sum b => sum + b.quantity) 0

/-- The unit price taken from one representative batch: mrp discounted
by discount_percent, with a missing discount treated as 0. -/
def unitPriceOf (b : Batch) : ℚ := b.mrp * (1 - (b.discount_percent.getD 0) / 100)

/-- Observable outcome of one resolution attempt. -/
inductive ResolveOutcome where
  | productNotFound
  | outOfStock (p : Product)
  | added (line : CartItem)
  | incremented (productId : String)
  | maxQuantityReached (productId : String)
deriving DecidableEq, Repr

/-- resolveScannedProductToCart: select a product, fetch its batches
(with the expiry fallback), fail with OutOfStock when none are found,
otherwise build the candidate cart line and merge it into the cart
(increment an existing line by one when below the freshly computed
available quantity, warn at the cap, insert a new line with quantity one
otherwise). -/
def resolveScannedProductToCart (db : DB) (shopId : String) (ocr : ScanGuess)
    (cart : List CartItem) : ResolveOutcome × List CartItem :=
  match selectProduct db shopId ocr with
  | none => (.productNotFound, cart)
  | some p =>
    match fetchInventory db shopId p.id ocr.expiryDate with
    | [] => (.outOfStock p, cart)
    | firstBatch :: rest =>
      let availableQty := sumQuantities (firstBatch :: rest)
      let unitPrice := unitPriceOf firstBatch
      match cart.find? (fun item => item.productId = p.id) with
      | some existing =>
        if existing.qty < availableQty then
          (.incremented p.id,
           cart.map (fun item =>
             if item.productId = p.id then { item with qty := item.qty + 1 } else item))
        else (.maxQuantityReached p.id, cart)
      | none =>
        let line : CartItem :=
          { productId := p.id, gtin := ocr.gtin, name := p.name, qty := 1,
            unitPrice := unitPrice, availableQty := availableQty }
        (.added line, cart ++ [line])

/-! ### Cart manager (changeQty, removeItem) -/

/-- The body of the map inside changeQty, applied to one cart item;
the boolean reports whether the not-enough-stock warning was raised for
this item. -/
def changeQtyItem (productId : String) (newQty : Int) (item : CartItem) : CartItem × Bool :=
  if item.productId = productId then
    if 0 < newQty ∧ newQty ≤ (item.availableQty : Int) then
      ({ item with qty := newQty.toNat }, false)
    else if (item.availableQty : Int) < newQty then
      ({ item with qty := item.availableQty }, true)
    else (item, false)
  else (item, false)

/-- changeQty: map changeQtyItem over the cart; the boolean reports
whether any warning toast was raised. -/
def changeQty (cart : List CartItem) (productId : String) (newQty : Int) :
    List CartItem × Bool :=
  (cart.map (fun item => (changeQtyItem productId newQty item).1),
   (cart.map (fun item => (changeQtyItem productId newQty item).2)).any id)

/-- removeItem: drop the lines with the given product id. -/
def removeItem (cart : List CartItem) (productId : String) : List CartItem :=
  cart.filter (fun item => item.productId ≠ productId)

/-! ### Helper lemmas: cart manager -/

theorem changeQtyItem_of_nonpos (pid : String) (n : Int) (item : CartItem) (hn : n ≤ 0) :
    changeQtyItem pid n item = (item, false) := by
  have h1 : ¬ (0 < n ∧ n ≤ (item.availableQty : Int)) := by omega
  have h2 : ¬ ((item.availableQty : Int) < n) := by omega
  unfold changeQtyItem
  split <;> simp [h1, h2]

theorem changeQtyItem_of_other (pid : String) (n : Int) (item : CartItem)
    (h : item.productId ≠ pid) : changeQtyItem pid n item = (item, false) := by
  unfold changeQtyItem
  rw [if_neg h]

theorem changeQtyItem_availableQty (pid : String) (n : Int) (item : CartItem) :
    (changeQtyItem pid n item).1.availableQty = item.availableQty := by
  unfold changeQtyItem
  split <;> (try split) <;> (try split) <;> rfl

theorem changeQtyItem_qty_le (pid : String) (n : Int) (item : CartItem)
    (h : item.qty ≤ item.availableQty) :
    (changeQtyItem pid n item).1.qty ≤ item.availableQty := by
  unfold changeQtyItem
  split
  · split
    · next hc =>
      simpa using Int.toNat_le.2 hc.2
    · split
      · exact Nat.le_refl _
      · exact h
  · exact h

/-! ### Helper lemmas: checkout engine -/

theorem sumQuantities_eq_sum (bs : List Batch) :
    sumQuantities bs = (bs.map (fun b => b.quantity)).sum := by
  have haux : ∀ (l : List Batch) (n : Nat),
      l.foldl (fun sum b => sum + b.quantity) n = n + (l.map (fun b => b.quantity)).sum := by
    intro l
    induction l with
    | nil => intro n; simp
    | cons b rest ih =>
      intro n
      simp only [List.foldl_cons, List.map_cons, List.sum_cons]
      rw [ih]
      omega
  simpa [sumQuantities] using haux bs 0

/-- Definition following the specification wording of the per-line FEFO
deduction schedule: walk the expiry-ordered batch list, deduct
min(remaining, batch.quantity) from each batch, write back the reduced
quantity with the batch marked sold_out exactly when it reaches zero,
and stop once the requested quantity is satisfied or batches are
exhausted.  The checkout loop of the code is compared against it. -/
def fefoUpdates : Nat → List Batch → List Event
  | _, [] => []
  | remaining, b :: rest =>
    if remaining = 0 then []
    else
      Event.batchUpdate b.id (b.quantity - min remaining b.quantity)
        (if b.quantity - min remaining b.quantity = 0 then "sold_out" else "active")
        :: fefoUpdates (remaining - min remaining b.quantity) rest

theorem deductLine_events (nm : String) :
    ∀ (bs : List Batch) (q : Nat) (db : List Batch),
      (deductLine (fun _ => false) nm q db bs).2.2.1 = fefoUpdates q bs := by
  intro bs
  induction bs with
  | nil => intro q db; rfl
  | cons b rest ih =>
    intro q db
    by_cases hq : q = 0
    · subst hq; rfl
    · simp [deductLine, fefoUpdates, hq, ih]

theorem deductLine_rem (nm : String) :
    ∀ (bs : List Batch) (q : Nat) (db : List Batch),
      (deductLine (fun _ => false) nm q db bs).2.1
        = q - min q ((bs.map (fun b => b.quantity)).sum) := by
  intro bs
  induction bs with
  | nil => intro q db; simp [deductLine]
  | cons b rest ih =>
    intro q db
    by_cases hq : q = 0
    · subst hq; simp [deductLine]
    · simp only [deductLine, if_neg hq, List.map_cons, List.sum_cons]
      simp only [Bool.false_eq_true, if_false]
      rw [ih]
      omega

theorem deductLine_noFail_err (nm : String) :
    ∀ (bs : List Batch) (q : Nat) (db : List Batch),
      (deductLine (fun _ => false) nm q db bs).2.2.2 = none := by
  intro bs
  induction bs with
  | nil => intro q db; rfl
  | cons b rest ih =>
    intro q db
    by_cases hq : q = 0
    · subst hq; rfl
    · simp [deductLine, hq, ih]

theorem deductLine_db (u : String → Bool) (nm : String) :
    ∀ (bs : List Batch) (q : Nat) (db : List Batch),
      (deductLine u nm q db bs).1 = applyEvents db (deductLine u nm q db bs).2.2.1 := by
  intro bs
  induction bs with
  | nil => intro q db; rfl
  | cons b rest ih =>
    intro q db
    by_cases hq : q = 0
    · subst hq; rfl
    · by_cases hu : u b.id
      · simp [deductLine, hq, hu, applyEvents]
      · simp only [deductLine, if_neg hq, hu, Bool.false_eq_true, if_false]
        simpa [applyEvents] using ih _ _

theorem processLines_db (f u : String → Bool) (sid : String) :
    ∀ (cart : List CartItem) (db : List Batch),
      (processLines f u sid cart db).1 = applyEvents db (processLines f u sid cart db).2.1 := by
  intro cart
  induction cart with
  | nil => intro db; rfl
  | cons item rest ih =>
    intro db
    by_cases hf : f item.productId
    · simp [processLines, hf, applyEvents, applyEvent]
    · simp only [processLines, hf, Bool.false_eq_true, if_false]
      cases herr : (deductLine u item.name item.qty db
          (fetchBatchesSorted db sid item.productId)).2.2.2 with
      | some e =>
        simp only [herr]
        simpa [applyEvents, applyEvent] using deductLine_db u item.name _ item.qty db
      | none =>
        simp only [herr]
        simp only [applyEvents, applyEvent, List.foldl_cons, List.foldl_append]
        have h1 := deductLine_db u item.name
          (fetchBatchesSorted db sid item.productId) item.qty db
        rw [applyEvents] at h1
        rw [← h1]
        simpa [applyEvents] using ih _

theorem processLines_noFail_err (sid : String) :
    ∀ (cart : List CartItem) (db : List Batch),
      (processLines (fun _ => false) (fun _ => false) sid cart db).2.2 = none := by
  intro cart
  induction cart with
  | nil => intro db; rfl
  | cons item rest ih =>
    intro db
    simp [processLines, deductLine_noFail_err, ih]

/-! ### Claim theorems: cart manager -/

/-- Claim C7: setQuantity accepts a requested quantity n exactly when
0 < n and n is at most the availableQty snapshot of the line, setting
the line quantity to n; when n exceeds availableQty it clamps the line
to availableQty and raises the warning; and it preserves the invariant
that no cart line ever has quantity above its availableQty snapshot. -/
theorem changeQty_bounds (cart : List CartItem) (pid : String) (n : Int) (i : Nat)
    (item : CartItem) :
    (cart[i]? = some item → item.productId = pid → 0 < n → n ≤ (item.availableQty : Int) →
        (changeQty cart pid n).1[i]? = some { item with qty := n.toNat }
          ∧ (changeQtyItem pid n item).2 = false)
    ∧ (cart[i]? = some item → item.productId = pid → (item.availableQty : Int) < n →
        (changeQty cart pid n).1[i]? = some { item with qty := item.availableQty }
          ∧ (changeQty cart pid n).2 = true)
    ∧ ((∀ it ∈ cart, it.qty ≤ it.availableQty) →
        ∀ it ∈ (changeQty cart pid n).1, it.qty ≤ it.availableQty) := by
  refine ⟨?_, ?_, ?_⟩
  · intro hi hpid hpos hle
    have hitem : changeQtyItem pid n item = ({ item with qty := n.toNat }, false) := by
      unfold changeQtyItem
      rw [if_pos hpid, if_pos ⟨hpos, hle⟩]
    constructor
    · rw [changeQty, List.getElem?_map, hi, Option.map_some']
      rw [hitem]
    · rw [hitem]
  · intro hi hpid hlt
    have hnot : ¬ (0 < n ∧ n ≤ (item.availableQty : Int)) := by
      intro h
      omega
    have hitem : changeQtyItem pid n item = ({ item with qty := item.availableQty }, true) := by
      unfold changeQtyItem
      rw [if_pos hpid, if_neg hnot, if_pos hlt]
    constructor
    · rw [changeQty, List.getElem?_map, hi, Option.map_some']
      rw [hitem]
    · have hmem : item ∈ cart := List.getElem?_mem hi
      have : true ∈ cart.map (fun it => (changeQtyItem pid n it).2) := by
        refine List.mem_map.2 ⟨item, hmem, ?_⟩
        rw [hitem]
      exact List.any_eq_true.2 ⟨true, this, rfl⟩
  · intro hinv it hit
    obtain ⟨x, hx, hxe⟩ := List.mem_map.1 hit
    subst hxe
    rw [changeQtyItem_availableQty]
    exact changeQtyItem_qty_le pid n x (hinv x hx)

/-- Witness for C7: on the concrete line (qty 2, availableQty 4),
setQuantity 3 is accepted, setQuantity 9 clamps to 4 with a warning,
and the invariant is preserved. -/
theorem changeQty_bounds_witness :
    ([⟨"p1", none, "Milk", 2, 10, 4⟩] : List CartItem)[0]? = some ⟨"p1", none, "Milk", 2, 10, 4⟩
    ∧ (changeQty [⟨"p1", none, "Milk", 2, 10, 4⟩] "p1" 3).1[0]?
        = some ⟨"p1", none, "Milk", 3, 10, 4⟩
    ∧ (changeQty [⟨"p1", none, "Milk", 2, 10, 4⟩] "p1" 9).1[0]?
        = some ⟨"p1", none, "Milk", 4, 10, 4⟩
    ∧ (changeQty [⟨"p1", none, "Milk", 2, 10, 4⟩] "p1" 9).2 = true
    ∧ (∀ it ∈ (changeQty [⟨"p1", none, "Milk", 2, 10, 4⟩] "p1" 9).1,
        it.qty ≤ it.availableQty) := by
  refine ⟨rfl, ?_, ?_, ?_, ?_⟩
  · exact ((changeQty_bounds [⟨"p1", none, "Milk", 2, 10, 4⟩] "p1" 3 0
      ⟨"p1", none, "Milk", 2, 10, 4⟩).1 rfl rfl (by decide) (by decide)).1
  · exact ((changeQty_bounds [⟨"p1", none, "Milk", 2, 10, 4⟩] "p1" 9 0
      ⟨"p1", none, "Milk", 2, 10, 4⟩).2.1 rfl rfl (by decide)).1
  · exact ((changeQty_bounds [⟨"p1", none, "Milk", 2, 10, 4⟩] "p1" 9 0
      ⟨"p1", none, "Milk", 2, 10, 4⟩).2.1 rfl rfl (by decide)).2
  · exact (changeQty_bounds [⟨"p1", none, "Milk", 2, 10, 4⟩] "p1" 9 0
      ⟨"p1", none, "Milk", 2, 10, 4⟩).2.2 (by decide)

/-- Claim C10: a setQuantity call with n at most 0 leaves the whole cart
unchanged and raises no warning, and every setQuantity call leaves
every line with a different product identifier unchanged. -/
theorem changeQty_frame (cart : List CartItem) (pid : String) (n : Int) (i : Nat)
    (item : CartItem) :
    (n ≤ 0 → changeQty cart pid n = (cart, false))
    ∧ (cart[i]? = some item → item.productId ≠ pid →
        (changeQty cart pid n).1[i]? = some item) := by
  constructor
  · intro hn
    have hmap : cart.map (fun it => (changeQtyItem pid n it).1) = cart := by
      have hfst : ∀ it ∈ cart, (changeQtyItem pid n it).1 = id it := fun it _ => by
        rw [changeQtyItem_of_nonpos pid n it hn]
        rfl
      rw [List.map_congr_left hfst, List.map_id]
    have hwarn : cart.map (fun it => (changeQtyItem pid n it).2)
        = cart.map (fun _ => false) :=
      List.map_congr_left (fun it _ => by rw [changeQtyItem_of_nonpos pid n it hn])
    unfold changeQty
    rw [hmap, hwarn]
    simp
  · intro hi hpid
    rw [changeQty, List.getElem?_map, hi, Option.map_some']
    rw [changeQtyItem_of_other pid n item hpid]

/-- Witness for C10: setQuantity with n = 0 leaves a two-line cart
unchanged without warning, and changing one product leaves the other
line untouched. -/
theorem changeQty_frame_witness :
    changeQty [⟨"p1", none, "Milk", 2, 10, 4⟩, ⟨"p2", none, "Tea", 1, 5, 3⟩] "p1" 0
      = ([⟨"p1", none, "Milk", 2, 10, 4⟩, ⟨"p2", none, "Tea", 1, 5, 3⟩], false)
    ∧ (changeQty [⟨"p1", none, "Milk", 2, 10, 4⟩, ⟨"p2", none, "Tea", 1, 5, 3⟩] "p1" 4).1[1]?
        = some ⟨"p2", none, "Tea", 1, 5, 3⟩ := by
  constructor
  · exact (changeQty_frame [⟨"p1", none, "Milk", 2, 10, 4⟩, ⟨"p2", none, "Tea", 1, 5, 3⟩]
      "p1" 0 0 ⟨"p1", none, "Milk", 2, 10, 4⟩).1 (by decide)
  · exact (changeQty_frame [⟨"p1", none, "Milk", 2, 10, 4⟩, ⟨"p2", none, "Tea", 1, 5, 3⟩]
      "p1" 4 1 ⟨"p2", none, "Tea", 1, 5, 3⟩).2 rfl (by decide)

/-! ### Claim theorems: checkout engine -/

/-- Single cart line requesting 15 units, used by the C1 example. -/
def itemC1 : CartItem := ⟨"p1", none, "Milk", 15, 100, 20⟩

/-- Two batches of 10 units with ascending expiry dates, for the C1
example. -/
def dbC1 : List Batch :=
  [⟨"b1", "p1", "s1", 10, 100, none, 20240101, "active"⟩,
   ⟨"b2", "p1", "s1", 10, 100, none, 20240201, "active"⟩]

/-- Claim C1: per cart line, checkout deducts from the active
positive-quantity batches of the product at the shop in ascending
expiry order (the fetched list is sorted by expiry and is a permutation
of exactly those batches); the issued updates follow the FEFO schedule
(deduct min(remaining, quantity) per batch, write back the reduced
quantity, sold_out exactly at zero, stop when satisfied or exhausted);
the undeducted remainder is the request minus min(request, available);
and on 15 units against batches of 10 and 10 the first batch ends at 0
and sold_out, the second at 5 and active, with 15 units deducted. -/
theorem finalizeCheckout_fefo (db : List Batch) (sid pid nm : String) (q : Nat)
    (bs : List Batch) :
    List.Sorted expiryLE (fetchBatchesSorted db sid pid)
    ∧ List.Perm (fetchBatchesSorted db sid pid) (db.filter (isActivePositive sid pid))
    ∧ (deductLine (fun _ => false) nm q db bs).2.2.1 = fefoUpdates q bs
    ∧ (deductLine (fun _ => false) nm q db bs).2.1
        = q - min q ((bs.map (fun b => b.quantity)).sum)
    ∧ (finalizeCheckout (fun _ => false) (fun _ => false) none "s1" [itemC1] dbC1).db
        = [⟨"b1", "p1", "s1", 0, 100, none, 20240101, "sold_out"⟩,
           ⟨"b2", "p1", "s1", 5, 100, none, 20240201, "active"⟩]
    ∧ (finalizeCheckout (fun _ => false) (fun _ => false) none "s1" [itemC1] dbC1).error
        = none
    ∧ sumQuantities dbC1
        - sumQuantities (finalizeCheckout (fun _ => false) (fun _ => false) none "s1"
            [itemC1] dbC1).db = 15 := by
  refine ⟨?_, ?_, ?_, ?_, by decide, by decide, by decide⟩
  · exact List.sorted_insertionSort expiryLE _
  · exact List.perm_insertionSort expiryLE _
  · exact deductLine_events nm bs q db
  · exact deductLine_rem nm bs q db

/-- Three-line cart used by the C2 example: products One, Two, Three. -/
def cartC2 : List CartItem :=
  [⟨"p1", none, "One", 2, 10, 5⟩, ⟨"p2", none, "Two", 1, 10, 5⟩,
   ⟨"p3", none, "Three", 1, 10, 5⟩]

/-- One active batch per product of the C2 cart. -/
def dbC2 : List Batch :=
  [⟨"a1", "p1", "s1", 5, 10, none, 1, "active"⟩,
   ⟨"a2", "p2", "s1", 5, 10, none, 1, "active"⟩,
   ⟨"a3", "p3", "s1", 5, 10, none, 1, "active"⟩]

/-- Update-failure oracle of the C2 example: the update of batch a2
(line Two) fails. -/
def failA2 : String → Bool := fun bid => bid == "a2"

/-- Claim C2: checkout is sequential with no cross-line transaction:
the final database is exactly the initial one with the successfully
issued updates applied in order (nothing is rolled back), any failure
leaves the cart retained, and in the concrete three-line run where the
update of line Two fails, line One keeps its applied deduction, line
Three is untouched, the error names product Two, and the cart is
retained. -/
theorem finalizeCheckout_partial_failure (f u : String → Bool) (sn : Option String)
    (sid : String) (cart : List CartItem) (db : List Batch) :
    ((finalizeCheckout f u sn sid cart db).db
        = applyEvents db (finalizeCheckout f u sn sid cart db).events)
    ∧ (∀ e, (finalizeCheckout f u sn sid cart db).error = some e →
        (finalizeCheckout f u sn sid cart db).finalCart = cart)
    ∧ ((finalizeCheckout (fun _ => false) failA2 none "s1" cartC2 dbC2).error
        = some (.updateFailed "Two")
      ∧ (finalizeCheckout (fun _ => false) failA2 none "s1" cartC2 dbC2).db
        = [⟨"a1", "p1", "s1", 3, 10, none, 1, "active"⟩,
           ⟨"a2", "p2", "s1", 5, 10, none, 1, "active"⟩,
           ⟨"a3", "p3", "s1", 5, 10, none, 1, "active"⟩]
      ∧ (finalizeCheckout (fun _ => false) failA2 none "s1" cartC2 dbC2).finalCart
        = cartC2) := by
  refine ⟨?_, ?_, by decide, by decide, by decide⟩
  · unfold finalizeCheckout
    by_cases hc : cart.isEmpty
    · simp [hc, applyEvents]
    · simp only [hc, Bool.false_eq_true, if_false]
      simpa [applyEvents, applyEvent] using processLines_db f u sid cart db
  · intro e he
    unfold finalizeCheckout at he ⊢
    by_cases hc : cart.isEmpty
    · simp [hc] at he
    · simp only [hc, Bool.false_eq_true, if_false] at he ⊢
      simp only [he, Option.isSome_some, if_true]

/-- Witness for C2: at the concrete three-line input the error is the
named partial failure and the theorem yields the retained cart. -/
theorem finalizeCheckout_partial_failure_witness :
    (finalizeCheckout (fun _ => false) failA2 none "s1" cartC2 dbC2).error
      = some (.updateFailed "Two")
    ∧ (finalizeCheckout (fun _ => false) failA2 none "s1" cartC2 dbC2).finalCart
      = cartC2 :=
  ⟨by decide,
   (finalizeCheckout_partial_failure (fun _ => false) failA2 none "s1" cartC2 dbC2).2.1
     (.updateFailed "Two") (by decide)⟩

/-- Claim C3: for every non-empty cart the receipt is rendered and
opened before any batch fetch or update (it is the first trace event)
and it is produced whatever the failure oracles do — in particular when
every update fails. -/
theorem finalizeCheckout_receipt_first (f u : String → Bool) (sn : Option String)
    (sid : String) (cart : List CartItem) (db : List Batch) (h : cart ≠ []) :
    (finalizeCheckout f u sn sid cart db).events.head? = some Event.receiptOpened
    ∧ (finalizeCheckout f u sn sid cart db).receipt = some (generateReceiptHtml sn cart) := by
  have hc : cart.isEmpty = false := by
    cases cart with
    | nil => exact absurd rfl h
    | cons a l => rfl
  unfold finalizeCheckout
  simp [hc]

/-- Witness for C3: with every update call failing, the receipt is
still the first event and is produced. -/
theorem finalizeCheckout_receipt_first_witness :
    cartC2 ≠ []
    ∧ ((finalizeCheckout (fun _ => false) (fun _ => true) none "s1" cartC2 dbC2).events.head?
        = some Event.receiptOpened
      ∧ (finalizeCheckout (fun _ => false) (fun _ => true) none "s1" cartC2 dbC2).receipt
        = some (generateReceiptHtml none cartC2)) :=
  ⟨by decide,
   finalizeCheckout_receipt_first (fun _ => false) (fun _ => true) none "s1" cartC2 dbC2
     (by decide)⟩

/-- Cart line of the C4 example: 15 requested against a stale snapshot;
only 7 units actually remain in stock. -/
def itemC4 : CartItem := ⟨"p1", none, "Milk", 15, 100, 15⟩

/-- The two batches of the C4 example holding 3 and 4 units. -/
def dbC4 : List Batch :=
  [⟨"c1", "p1", "s1", 3, 100, none, 1, "active"⟩,
   ⟨"c2", "p1", "s1", 4, 100, none, 2, "active"⟩]

/-- Claim C4: when no fetch or update call fails, checkout always
reports success and clears the cart, whatever the cart requests; a line
whose request exceeds the available total just deducts everything
available (the remainder, request minus available, stays undeducted and
unreported); concretely, 15 requested against 3+4 in stock empties both
batches, reports no error and clears the cart. -/
theorem finalizeCheckout_stale_snapshot (sn : Option String) (sid : String)
    (cart : List CartItem) (db : List Batch) (nm : String) (q : Nat) (bs : List Batch) :
    ((finalizeCheckout (fun _ => false) (fun _ => false) sn sid cart db).error = none
      ∧ (finalizeCheckout (fun _ => false) (fun _ => false) sn sid cart db).finalCart = [])
    ∧ (((bs.map (fun b => b.quantity)).sum ≤ q →
        (deductLine (fun _ => false) nm q db bs).2.1 = q - (bs.map (fun b => b.quantity)).sum))
    ∧ ((finalizeCheckout (fun _ => false) (fun _ => false) none "s1" [itemC4] dbC4).db
        = [⟨"c1", "p1", "s1", 0, 100, none, 1, "sold_out"⟩,
           ⟨"c2", "p1", "s1", 0, 100, none, 2, "sold_out"⟩]
      ∧ (finalizeCheckout (fun _ => false) (fun _ => false) none "s1" [itemC4] dbC4).error
        = none
      ∧ (finalizeCheckout (fun _ => false) (fun _ => false) none "s1" [itemC4] dbC4).finalCart
        = []) := by
  refine ⟨⟨?_, ?_⟩, ?_, by decide, by decide, by decide⟩
  · unfold finalizeCheckout
    by_cases hc : cart.isEmpty
    · simp [hc]
    · simp [hc, processLines_noFail_err]
  · unfold finalizeCheckout
    by_cases hc : cart.isEmpty
    · simp [hc]
      exact List.isEmpty_iff.1 hc
    · simp [hc, processLines_noFail_err]
  · intro hle
    rw [deductLine_rem nm bs q db]
    omega

/-- Witness for C4: at the concrete stale-snapshot input the shortfall
remainder is 15 - 7 = 8. -/
theorem finalizeCheckout_stale_snapshot_witness :
    ((dbC4.map (fun b => b.quantity)).sum ≤ 15)
    ∧ (deductLine (fun _ => false) "Milk" 15 dbC4 dbC4).2.1
        = 15 - (dbC4.map (fun b => b.quantity)).sum :=
  ⟨by decide,
   (finalizeCheckout_stale_snapshot none "s1" [itemC4] dbC4 "Milk" 15 dbC4).2.1 (by decide)⟩

/-! ### Claim theorems: cart resolver -/

/-- Claim C8: a guess whose code matches exactly one catalog product
resolves to that product, whatever name or expiry fields the guess also
carries. -/
theorem selectProduct_code_wins (db : DB) (sid c : String) (p : Product)
    (nm : Option String) (d : Option Nat)
    (h : db.products.filter (fun q => q.gtin = some c) = [p]) :
    selectProduct db sid ⟨some c, nm, d⟩ = some p := by
  have hcode : codeMatch db (some c) = some p := by
    simp only [codeMatch, lookupByGtin, h]
  simp [selectProduct, hcode]

/-- Witness for C8: a catalog where exactly one product carries the
scanned code, together with a distracting name and expiry. -/
theorem selectProduct_code_wins_witness :
    (DB.mk [⟨"a", "Tea", some "111"⟩, ⟨"b", "Milk", some "222"⟩] []).products.filter
        (fun q => q.gtin = some "222") = [⟨"b", "Milk", some "222"⟩]
    ∧ selectProduct (DB.mk [⟨"a", "Tea", some "111"⟩, ⟨"b", "Milk", some "222"⟩] []) "s1"
        ⟨some "222", some "Tea", some 3⟩ = some ⟨"b", "Milk", some "222"⟩ :=
  ⟨by decide,
   selectProduct_code_wins (DB.mk [⟨"a", "Tea", some "111"⟩, ⟨"b", "Milk", some "222"⟩] [])
     "s1" "222" ⟨"b", "Milk", some "222"⟩ (some "Tea") (some 3) (by decide)⟩

/-- Claim C5: with no code match and name candidates A, B, C in result
order together with a guessed expiry date, resolution probes the
candidates in order for an active batch at this shop with exactly that
expiry and positive quantity: it selects B when A fails the probe and B
passes it, and falls back to the first candidate A when no candidate
passes. -/
theorem selectProduct_expiry_tiebreak (db : DB) (sid : String) (g : Option String)
    (nm : String) (d : Nat) (A B C : Product)
    (hcode : codeMatch db g = none)
    (hcands : nameCandidates db (jsTrim nm) = [A, B, C]) :
    (probeExpiry db sid A.id d = false → probeExpiry db sid B.id d = true →
        selectProduct db sid ⟨g, some nm, some d⟩ = some B)
    ∧ (probeExpiry db sid A.id d = false → probeExpiry db sid B.id d = false →
        probeExpiry db sid C.id d = false →
        selectProduct db sid ⟨g, some nm, some d⟩ = some A) := by
  constructor
  · intro hA hB
    simp [selectProduct, hcode, hcands, tieBreak, hA, hB]
  · intro hA hB hC
    simp [selectProduct, hcode, hcands, tieBreak, hA, hB, hC]

/-- Name candidates of the C5 witness. -/
def prodA : Product := ⟨"a", "Choco Bar", none⟩

/-- Name candidates of the C5 witness. -/
def prodB : Product := ⟨"b", "Choco Max", none⟩

/-- Name candidates of the C5 witness. -/
def prodC : Product := ⟨"c", "Choco Mini", none⟩

/-- Catalog of the C5 witness: three chocolate products; only the
second has an active batch with the guessed expiry date 7. -/
def dbC5 : DB := ⟨[prodA, prodB, prodC], [⟨"bb", "b", "s1", 4, 10, none, 7, "active"⟩]⟩

/-- Witness for C5: the name guess choco matches all three products and
the expiry probe selects the second one. -/
theorem selectProduct_expiry_tiebreak_witness :
    codeMatch dbC5 none = none
    ∧ nameCandidates dbC5 (jsTrim "choco") = [prodA, prodB, prodC]
    ∧ probeExpiry dbC5 "s1" prodA.id 7 = false
    ∧ probeExpiry dbC5 "s1" prodB.id 7 = true
    ∧ selectProduct dbC5 "s1" ⟨none, some "choco", some 7⟩ = some prodB :=
  ⟨rfl, by decide, by decide, by decide,
   (selectProduct_expiry_tiebreak dbC5 "s1" none "choco" 7 prodA prodB prodC rfl
     (by decide)).1 (by decide) (by decide)⟩

/-- Claim C6: after a product is selected, the batch fetch uses the
exact-expiry filter when the guess carries an expiry date, retries
without the filter when the filtered result is empty, fails with
OutOfStock exactly when the unfiltered result is also empty, and on
that failure leaves the cart unchanged. -/
theorem resolve_expiry_fallback (db : DB) (sid : String) (ocr : ScanGuess) (p : Product)
    (cart : List CartItem) (d : Nat)
    (hsel : selectProduct db sid ocr = some p)
    (hexp : ocr.expiryDate = some d) :
    ((activeBatches db sid p.id).filter (fun b => b.expiry_date = d) ≠ [] →
        fetchInventory db sid p.id ocr.expiryDate
          = (activeBatches db sid p.id).filter (fun b => b.expiry_date = d))
    ∧ ((activeBatches db sid p.id).filter (fun b => b.expiry_date = d) = [] →
        fetchInventory db sid p.id ocr.expiryDate = activeBatches db sid p.id)
    ∧ ((resolveScannedProductToCart db sid ocr cart).1 = .outOfStock p ↔
        activeBatches db sid p.id = [])
    ∧ ((resolveScannedProductToCart db sid ocr cart).1 = .outOfStock p →
        (resolveScannedProductToCart db sid ocr cart).2 = cart) := by
  have hkey : ∀ fb rest, fetchInventory db sid p.id ocr.expiryDate = fb :: rest →
      (resolveScannedProductToCart db sid ocr cart).1 ≠ .outOfStock p := by
    intro fb rest hfi
    cases hf : cart.find? (fun item => item.productId = p.id) with
    | some existing =>
      by_cases hlt : existing.qty < sumQuantities (fb :: rest)
      · simp [resolveScannedProductToCart, hsel, hfi, hf, hlt]
      · simp [resolveScannedProductToCart, hsel, hfi, hf, hlt]
    | none => simp [resolveScannedProductToCart, hsel, hfi, hf]
  refine ⟨?_, ?_, ⟨?_, ?_⟩, ?_⟩
  · intro h
    rw [hexp]
    unfold fetchInventory
    have : ((activeBatches db sid p.id).filter (fun b => b.expiry_date = d)).isEmpty
        = false := by
      cases he : (activeBatches db sid p.id).filter (fun b => b.expiry_date = d) with
      | nil => exact absurd he h
      | cons a l => rfl
    simp [this]
  · intro h
    rw [hexp]
    unfold fetchInventory
    simp [h]
  · intro hout
    by_cases hact : activeBatches db sid p.id = []
    · exact hact
    · exfalso
      have hne : fetchInventory db sid p.id ocr.expiryDate ≠ [] := by
        rw [hexp]
        unfold fetchInventory
        cases hflt : (activeBatches db sid p.id).filter (fun b => b.expiry_date = d) with
        | nil => simpa [hflt] using hact
        | cons a l => simp [hflt]
      cases hfi : fetchInventory db sid p.id ocr.expiryDate with
      | nil => exact hne hfi
      | cons fb rest => exact hkey fb rest hfi hout
  · intro hact
    have hfi : fetchInventory db sid p.id ocr.expiryDate = [] := by
      rw [hexp]
      unfold fetchInventory
      simp [hact]
    simp [resolveScannedProductToCart, hsel, hfi]
  · intro hout
    cases hfi : fetchInventory db sid p.id ocr.expiryDate with
    | nil => simp [resolveScannedProductToCart, hsel, hfi]
    | cons fb rest => exact absurd hout (hkey fb rest hfi)

/-- The catalog of the C6 witness: one product matched by code, with no
batch anywhere. -/
def dbC6 : DB := ⟨[⟨"p", "Milk", some "g"⟩], []⟩

/-- A nonempty cart for the C6 witness frame condition. -/
def cartC6 : List CartItem := [⟨"q", none, "Tea", 1, 5, 3⟩]

/-- Witness for C6: with no batch in stock the resolution fails with
OutOfStock and the cart is unchanged. -/
theorem resolve_expiry_fallback_witness :
    selectProduct dbC6 "s1" ⟨some "g", none, some 9⟩ = some ⟨"p", "Milk", some "g"⟩
    ∧ ((resolveScannedProductToCart dbC6 "s1" ⟨some "g", none, some 9⟩ cartC6).1
        = .outOfStock ⟨"p", "Milk", some "g"⟩ ↔ activeBatches dbC6 "s1" "p" = [])
    ∧ ((resolveScannedProductToCart dbC6 "s1" ⟨some "g", none, some 9⟩ cartC6).1
        = .outOfStock ⟨"p", "Milk", some "g"⟩ →
        (resolveScannedProductToCart dbC6 "s1" ⟨some "g", none, some 9⟩ cartC6).2
          = cartC6) :=
  ⟨by decide,
   (resolve_expiry_fallback dbC6 "s1" ⟨some "g", none, some 9⟩ ⟨"p", "Milk", some "g"⟩
     cartC6 9 (by decide) rfl).2.2.1,
   (resolve_expiry_fallback dbC6 "s1" ⟨some "g", none, some 9⟩ ⟨"p", "Milk", some "g"⟩
     cartC6 9 (by decide) rfl).2.2.2⟩

/-- Claim C9: every resolution that produces a cart line gives it an
available quantity equal to the sum of the quantities of all fetched
batches and a unit price equal to the first fetched batch list price
reduced by that batch discount percent. -/
theorem resolve_line_price (db : DB) (sid : String) (ocr : ScanGuess)
    (cart : List CartItem) (line : CartItem)
    (h : (resolveScannedProductToCart db sid ocr cart).1 = .added line) :
    ∃ p fb rest, selectProduct db sid ocr = some p
      ∧ fetchInventory db sid p.id ocr.expiryDate = fb :: rest
      ∧ line.availableQty = ((fb :: rest).map (fun b => b.quantity)).sum
      ∧ line.unitPrice = fb.mrp * (1 - (fb.discount_percent.getD 0) / 100) := by
  cases hsel : selectProduct db sid ocr with
  | none => simp [resolveScannedProductToCart, hsel] at h
  | some p =>
    cases hfi : fetchInventory db sid p.id ocr.expiryDate with
    | nil => simp [resolveScannedProductToCart, hsel, hfi] at h
    | cons fb rest =>
      cases hf : cart.find? (fun item => item.productId = p.id) with
      | some existing =>
        by_cases hlt : existing.qty < sumQuantities (fb :: rest)
        · simp [resolveScannedProductToCart, hsel, hfi, hf, hlt] at h
        · simp [resolveScannedProductToCart, hsel, hfi, hf, hlt] at h
      | none =>
        refine ⟨p, fb, rest, rfl, hfi, ?_⟩
        simp [resolveScannedProductToCart, hsel, hfi, hf] at h
        subst h
        exact ⟨sumQuantities_eq_sum (fb :: rest), rfl⟩

/-- Catalog of the C9 witness: one code-matched product with two active
batches of 2 and 3 units; the first batch has list price 100 with a 10
percent discount. -/
def dbC9 : DB :=
  ⟨[⟨"p", "Milk", some "g"⟩],
   [⟨"x1", "p", "s1", 2, 100, some 10, 1, "active"⟩,
    ⟨"x2", "p", "s1", 3, 50, none, 2, "active"⟩]⟩

/-- The cart line produced by the C9 witness resolution: available
quantity 2 + 3 = 5, unit price of the first batch (100 with a 10
percent discount). -/
def lineC9 : CartItem :=
  ⟨"p", some "g", "Milk", 1, unitPriceOf ⟨"x1", "p", "s1", 2, 100, some 10, 1, "active"⟩, 5⟩

/-- Witness for C9: the produced line has available quantity equal to
the batch-quantity sum and the first-batch discounted price. -/
theorem resolve_line_price_witness :
    ∃ p fb rest, selectProduct dbC9 "s1" ⟨some "g", none, none⟩ = some p
      ∧ fetchInventory dbC9 "s1" p.id (ScanGuess.mk (some "g") none none).expiryDate
        = fb :: rest
      ∧ lineC9.availableQty = ((fb :: rest).map (fun b => b.quantity)).sum
      ∧ lineC9.unitPrice = fb.mrp * (1 - (fb.discount_percent.getD 0) / 100) :=
  resolve_line_price dbC9 "s1" ⟨some "g", none, none⟩ [] lineC9 rfl

end ClearShelf
